import Mathlib

/-!
Shallow embedding of the graphql-gateway repository's resolver code.

The repository consists of three Apollo subgraph services (user service in
src/unnamed/part_001, listing service in src/listing-service/index.js,
messaging service in src/messaging-service/index.js) plus a gateway
(src/gateway/index.js).  Every resolver performs at most one `fetch` against
an upstream REST API rooted at the environment variable `BASE_URL`, inspects
`res.ok`, and returns either the parsed JSON body, `null`, or `[]`.

Modelling choices:
* JSON values are the inductive `Json`; JavaScript `undefined` is collapsed
  to `Json.null` (property access on a missing key yields `undefined` in JS).
* `fetch` is an oracle `Fetcher : FetchRequest → Except TransportError Response`;
  a thrown transport-level error is `Except.error`, a completed HTTP exchange
  is `Except.ok` with the status recorded in `Response.ok` and the already
  parsed body in `Response.body`.
* Each resolver returns an `Outcome`: the list of fetch requests it issued,
  in order, together with its result (`Except.error` models an uncaught
  exception propagating out of the async resolver).
* `URLSearchParams` percent-encoding is elided: arguments are serialized as
  `k=v` pairs joined by `&`, which is enough for every claim below.
-/

namespace GraphQLGateway

/-- JSON values as produced by `res.json()`.  JavaScript `undefined` is
collapsed to `Json.null`. -/
inductive Json where
  | null : Json
  | bool : Bool → Json
  | num : Int → Json
  | str : String → Json
  | arr : List Json → Json
  | obj : List (String × Json) → Json

/-- JavaScript property access `o[k]`: the value of the first field named `k`,
or `Json.null` (modelling `undefined`) when absent or when `o` is not an
object. -/
def jsGet (j : Json) (k : String) : Json :=
  match j with
  | Json.obj fields =>
      match fields.find? (fun p => p.1 == k) with
      | some p => p.2
      | none => Json.null
  | _ => Json.null

/-- The Authorization header slot of an outbound fetch: `absent` when the
resolver passes no headers object at all, `auth v` when it passes
`headers: { Authorization: v }` (with `v = none` modelling a forwarded
`undefined`, i.e. the inbound request carried no Authorization header). -/
inductive AuthHeader where
  | absent : AuthHeader
  | auth : Option String → AuthHeader
deriving DecidableEq, Repr

/-- An outbound fetch request as issued by the resolvers: the URL string and
the Authorization header slot. -/
structure FetchRequest where
  url : String
  authHdr : AuthHeader
deriving DecidableEq, Repr

/-- A completed HTTP response: `ok` is `res.ok` (status in the 2xx range) and
`body` is the parsed JSON body `res.json()`. -/
structure Response where
  ok : Bool
  body : Json

/-- A transport-level failure (connection refused, timeout, ...): `fetch`
rejects before any `Response` exists. -/
structure TransportError where
  message : String
deriving DecidableEq, Repr

/-- The fetch oracle a service runs against: the upstream REST API together
with the transport. -/
def Fetcher : Type := FetchRequest → Except TransportError Response

/-- What one resolver invocation did: the fetch requests it issued, in order,
and the value it returned (`Except.error` = an exception escaped the
resolver). -/
structure Outcome where
  requests : List FetchRequest
  result : Except TransportError Json

/-- Inbound GraphQL request headers as exposed to resolvers through the
context (`{ headers }`); only `authorization` is ever read. -/
structure Headers where
  authorization : Option String
deriving DecidableEq, Repr

/-- Serialization of `new URLSearchParams(args)` (percent-encoding elided). -/
def urlSearchParams (args : List (String × String)) : String :=
  String.intercalate "&" (args.map (fun p => p.1 ++ "=" ++ p.2))

/-- An entity representation (reference) as delivered to a federation
resolver after the runtime destructures it: the single key field `id`. -/
structure EntityKey where
  id : String
deriving DecidableEq, Repr

namespace UserService

/-- `Query.getUser` (src/unnamed/part_001):
`fetch(BASE_URL + "/api/users/" + id)`; `null` when `!res.ok`, else the
parsed body. -/
def getUser (baseUrl : String) (fetch : Fetcher) (id : String) : Outcome :=
  let req : FetchRequest := { url := baseUrl ++ "/api/users/" ++ id, authHdr := AuthHeader.absent }
  { requests := [req],
    result :=
      match fetch req with
      | Except.error e => Except.error e
      | Except.ok res => Except.ok (if res.ok then res.body else Json.null) }

/-- `Query.currentUser` (src/unnamed/part_001):
`fetch(BASE_URL + "/api/auth/user", { headers: { Authorization: headers.authorization } })`;
`null` when `!res.ok`, else the parsed body. -/
def currentUser (baseUrl : String) (fetch : Fetcher) (headers : Headers) : Outcome :=
  let req : FetchRequest :=
    { url := baseUrl ++ "/api/auth/user", authHdr := AuthHeader.auth headers.authorization }
  { requests := [req],
    result :=
      match fetch req with
      | Except.error e => Except.error e
      | Except.ok res => Except.ok (if res.ok then res.body else Json.null) }

/-- `User.__resolveReference` (src/unnamed/part_001): destructures `{ id }`
from the reference, `fetch(BASE_URL + "/api/users/" + id)`; `null` when
`!res.ok`, else the parsed body. -/
def resolveReference (baseUrl : String) (fetch : Fetcher) (ref : EntityKey) : Outcome :=
  let req : FetchRequest :=
    { url := baseUrl ++ "/api/users/" ++ ref.id, authHdr := AuthHeader.absent }
  { requests := [req],
    result :=
      match fetch req with
      | Except.error e => Except.error e
      | Except.ok res => Except.ok (if res.ok then res.body else Json.null) }

end UserService

namespace ListingService

/-- `Query.getListing` (src/listing-service/index.js):
`fetch(BASE_URL + "/api/books/" + id)`; `null` when `!res.ok`, else the
parsed body. -/
def getListing (baseUrl : String) (fetch : Fetcher) (id : String) : Outcome :=
  let req : FetchRequest := { url := baseUrl ++ "/api/books/" ++ id, authHdr := AuthHeader.absent }
  { requests := [req],
    result :=
      match fetch req with
      | Except.error e => Except.error e
      | Except.ok res => Except.ok (if res.ok then res.body else Json.null) }

/-- `Query.searchListings` (src/listing-service/index.js):
`fetch(BASE_URL + "/api/books/search?" + new URLSearchParams(args))`; `[]`
when `!res.ok`, else the parsed body. -/
def searchListings (baseUrl : String) (fetch : Fetcher) (args : List (String × String)) : Outcome :=
  let req : FetchRequest :=
    { url := baseUrl ++ "/api/books/search?" ++ urlSearchParams args, authHdr := AuthHeader.absent }
  { requests := [req],
    result :=
      match fetch req with
      | Except.error e => Except.error e
      | Except.ok res => Except.ok (if res.ok then res.body else Json.arr []) }

/-- `Query.recentListings` (src/listing-service/index.js):
`fetch(BASE_URL + "/api/books")`; `[]` when `!res.ok`, else the parsed
body. -/
def recentListings (baseUrl : String) (fetch : Fetcher) : Outcome :=
  let req : FetchRequest := { url := baseUrl ++ "/api/books", authHdr := AuthHeader.absent }
  { requests := [req],
    result :=
      match fetch req with
      | Except.error e => Except.error e
      | Except.ok res => Except.ok (if res.ok then res.body else Json.arr []) }

/-- `Query.myListings` (src/listing-service/index.js):
`fetch(BASE_URL + "/api/books/my-listings", { headers: { Authorization: headers.authorization } })`;
`[]` when `!res.ok`, else the parsed body. -/
def myListings (baseUrl : String) (fetch : Fetcher) (headers : Headers) : Outcome :=
  let req : FetchRequest :=
    { url := baseUrl ++ "/api/books/my-listings", authHdr := AuthHeader.auth headers.authorization }
  { requests := [req],
    result :=
      match fetch req with
      | Except.error e => Except.error e
      | Except.ok res => Except.ok (if res.ok then res.body else Json.arr []) }

/-- `Listing.seller` (src/listing-service/index.js): returns the federation
reference `{ __typename: 'User', id: listing.ownerId }`, synchronously and
unconditionally; no fetch, no validation of `listing.ownerId`. -/
def seller (listing : Json) : Json :=
  Json.obj [("__typename", Json.str "User"), ("id", jsGet listing "ownerId")]

/-- `User.listings` (src/listing-service/index.js), the federated field the
listing service adds to `User`: `fetch(BASE_URL + "/api/books?ownerId=" + user.id)`;
`[]` when `!res.ok`, else the parsed body. -/
def userListings (baseUrl : String) (fetch : Fetcher) (user : EntityKey) : Outcome :=
  let req : FetchRequest :=
    { url := baseUrl ++ "/api/books?ownerId=" ++ user.id, authHdr := AuthHeader.absent }
  { requests := [req],
    result :=
      match fetch req with
      | Except.error e => Except.error e
      | Except.ok res => Except.ok (if res.ok then res.body else Json.arr []) }

end ListingService

namespace MessagingService

/-- `Query.getReceivedMessages` (src/messaging-service/index.js):
`fetch(BASE_URL + "/api/messages/received/" + userId)`; `[]` when `!res.ok`,
else the parsed body. -/
def getReceivedMessages (baseUrl : String) (fetch : Fetcher) (userId : String) : Outcome :=
  let req : FetchRequest :=
    { url := baseUrl ++ "/api/messages/received/" ++ userId, authHdr := AuthHeader.absent }
  { requests := [req],
    result :=
      match fetch req with
      | Except.error e => Except.error e
      | Except.ok res => Except.ok (if res.ok then res.body else Json.arr []) }

/-- `Query.getMessagesBetween` (src/messaging-service/index.js):
`fetch(BASE_URL + "/api/messages/between/" + userId1 + "/" + userId2)`; `[]`
when `!res.ok`, else the parsed body. -/
def getMessagesBetween (baseUrl : String) (fetch : Fetcher) (userId1 userId2 : String) : Outcome :=
  let req : FetchRequest :=
    { url := baseUrl ++ "/api/messages/between/" ++ userId1 ++ "/" ++ userId2,
      authHdr := AuthHeader.absent }
  { requests := [req],
    result :=
      match fetch req with
      | Except.error e => Except.error e
      | Except.ok res => Except.ok (if res.ok then res.body else Json.arr []) }

/-- `Message.__resolveReference` (src/messaging-service/index.js): the body
is literally `return null;` — no fetch is issued and `null` is returned for
every reference.  The ambient `fetch` oracle is passed for uniformity with
the other reference resolver but is never consulted. -/
def resolveReference (fetch : Fetcher) (ref : EntityKey) : Outcome :=
  { requests := [], result := Except.ok Json.null }

end MessagingService

/-! Declared entity shapes, from the schemas in the three services, used to
express "all declared fields populated". -/

/-- A `User` entity with every field of the schema in src/unnamed/part_001
populated (`id`, `username`, `email`, `role` are non-null in the schema;
`firstName`, `lastName`, `verified` are nullable but populated here). -/
structure UserEntity where
  id : String
  username : String
  email : String
  role : String
  firstName : String
  lastName : String
  verified : Bool
deriving DecidableEq, Repr

/-- The JSON body the upstream returns for a fully populated user. -/
def encodeUser (u : UserEntity) : Json :=
  Json.obj [("id", Json.str u.id), ("username", Json.str u.username),
    ("email", Json.str u.email), ("role", Json.str u.role),
    ("firstName", Json.str u.firstName), ("lastName", Json.str u.lastName),
    ("verified", Json.bool u.verified)]

/-! Concrete fixtures used by witnesses and counterexamples. -/

/-- A concrete fully populated user with id "7". -/
def user7 : UserEntity :=
  { id := "7", username := "alice", email := "alice@example.com", role := "student",
    firstName := "Alice", lastName := "Liddell", verified := true }

/-- A backing store for the user service that contains exactly user 7. -/
def userStore : Fetcher := fun req =>
  if req = { url := "https://api/api/users/7", authHdr := AuthHeader.absent } then
    Except.ok { ok := true, body := encodeUser user7 }
  else
    Except.ok { ok := false, body := Json.null }

/-- A concrete listing with id "123" owned by user "7", every declared field
of the `Listing` schema populated. -/
def listing123 : Json :=
  Json.obj [("id", Json.str "123"), ("title", Json.str "Calculus Textbook"),
    ("description", Json.str "Lightly used"), ("price", Json.num 30),
    ("condition", Json.str "good"), ("ownerId", Json.str "7"),
    ("postedAt", Json.str "2025-01-01"), ("imageUrl", Json.str "https://img/123"),
    ("courseCode", Json.str "MATH140")]

/-- A backing store for the listing service that contains exactly
listing 123. -/
def listingStore : Fetcher := fun req =>
  if req = { url := "https://api/api/books/123", authHdr := AuthHeader.absent } then
    Except.ok { ok := true, body := listing123 }
  else
    Except.ok { ok := false, body := Json.null }

/-- A concrete message entity with id "m1", every declared field of the
`Message` schema populated. -/
def msgEntity : Json :=
  Json.obj [("id", Json.str "m1"), ("senderId", Json.str "7"),
    ("receiverId", Json.str "8"), ("content", Json.str "hi"),
    ("timestamp", Json.str "2025-01-02")]

/-- A backing store for the messaging service that contains exactly
message "m1". -/
def msgStore : Fetcher := fun req =>
  if req = { url := "https://api/api/messages/m1", authHdr := AuthHeader.absent } then
    Except.ok { ok := true, body := msgEntity }
  else
    Except.ok { ok := false, body := Json.null }

/-- An upstream that answers every request with a non-2xx response. -/
def notOkFetcher : Fetcher := fun _ =>
  Except.ok { ok := false, body := Json.str "Not Found" }

/-- An upstream that answers every request with a 2xx response whose body
records the request URL (so distinct requests get distinct bodies). -/
def okEchoFetcher : Fetcher := fun req =>
  Except.ok { ok := true, body := Json.str req.url }

/-! Claim theorems. -/

/-- Claim C1 (amended part): for the `User` entity, resolving the key-only
reference `{ id := u.id }` against a backing store that answers the keyed URL
with the fully populated user record returns exactly that record, every
declared field included. -/
theorem c1_user_reference_resolves_full_entity (baseUrl : String) (fetch : Fetcher)
    (u : UserEntity)
    (h : fetch { url := baseUrl ++ "/api/users/" ++ u.id, authHdr := AuthHeader.absent }
      = Except.ok { ok := true, body := encodeUser u }) :
    (UserService.resolveReference baseUrl fetch { id := u.id }).result
      = Except.ok (encodeUser u) := by
  simp [UserService.resolveReference, h]

/-- Claim C1 witness: user 7 resolved against the store containing user 7. -/
theorem c1_user_reference_resolves_full_entity_witness :
    (UserService.resolveReference "https://api" userStore { id := "7" }).result
      = Except.ok (encodeUser user7) :=
  c1_user_reference_resolves_full_entity "https://api" userStore user7 rfl

/-- Claim C1 counterexample: the claim quantifies over all registered entity
types including `Message`, but the messaging service's reference resolver
returns `null` even against a backing store that does contain message "m1"
with all declared fields, so the resolved value is not the stored entity. -/
theorem c1_counterexample_message_reference :
    msgStore { url := "https://api/api/messages/m1", authHdr := AuthHeader.absent }
      = Except.ok { ok := true, body := msgEntity } ∧
    (MessagingService.resolveReference msgStore { id := "m1" }).result
      = Except.ok Json.null ∧
    Json.null ≠ msgEntity := by
  refine ⟨rfl, rfl, ?_⟩
  intro h
  exact Json.noConfusion h

/-- Claim C2: when the upstream answers every request with a non-2xx
response, each of the eight top-level query resolvers returns `null`
(single-entity queries) or `[]` (list queries) as a value — never an
error. -/
theorem c2_nonok_degrades_to_null_or_empty (baseUrl : String) (fetch : Fetcher)
    (errBody : FetchRequest → Json)
    (h : ∀ req, fetch req = Except.ok { ok := false, body := errBody req })
    (id lid uid u1 u2 : String) (args : List (String × String)) (hdrs : Headers) :
    (UserService.getUser baseUrl fetch id).result = Except.ok Json.null ∧
    (UserService.currentUser baseUrl fetch hdrs).result = Except.ok Json.null ∧
    (ListingService.getListing baseUrl fetch lid).result = Except.ok Json.null ∧
    (ListingService.searchListings baseUrl fetch args).result = Except.ok (Json.arr []) ∧
    (ListingService.recentListings baseUrl fetch).result = Except.ok (Json.arr []) ∧
    (ListingService.myListings baseUrl fetch hdrs).result = Except.ok (Json.arr []) ∧
    (MessagingService.getReceivedMessages baseUrl fetch uid).result = Except.ok (Json.arr []) ∧
    (MessagingService.getMessagesBetween baseUrl fetch u1 u2).result
      = Except.ok (Json.arr []) := by
  refine ⟨?_, ?_, ?_, ?_, ?_, ?_, ?_, ?_⟩ <;>
    simp [UserService.getUser, UserService.currentUser, ListingService.getListing,
      ListingService.searchListings, ListingService.recentListings, ListingService.myListings,
      MessagingService.getReceivedMessages, MessagingService.getMessagesBetween, h]

/-- Claim C2 witness: all eight resolvers evaluated against the
constant-not-ok upstream. -/
theorem c2_nonok_degrades_to_null_or_empty_witness :
    (UserService.getUser "https://api" notOkFetcher "1").result = Except.ok Json.null ∧
    (UserService.currentUser "https://api" notOkFetcher { authorization := some "Bearer t" }).result
      = Except.ok Json.null ∧
    (ListingService.getListing "https://api" notOkFetcher "123").result = Except.ok Json.null ∧
    (ListingService.searchListings "https://api" notOkFetcher
      [("query", "apartment")]).result = Except.ok (Json.arr []) ∧
    (ListingService.recentListings "https://api" notOkFetcher).result
      = Except.ok (Json.arr []) ∧
    (ListingService.myListings "https://api" notOkFetcher
      { authorization := some "Bearer t" }).result = Except.ok (Json.arr []) ∧
    (MessagingService.getReceivedMessages "https://api" notOkFetcher "7").result
      = Except.ok (Json.arr []) ∧
    (MessagingService.getMessagesBetween "https://api" notOkFetcher "7" "8").result
      = Except.ok (Json.arr []) :=
  c2_nonok_degrades_to_null_or_empty "https://api" notOkFetcher
    (fun _ => Json.str "Not Found") (fun _ => rfl)
    "1" "123" "7" "7" "8" [("query", "apartment")] { authorization := some "Bearer t" }

/-- Claim C3: the messaging service's `Message.__resolveReference` returns
`null` for every reference against every fetch oracle, i.e. regardless of
whether the referenced message exists in the backing store. -/
theorem c3_message_resolveReference_always_null (fetch : Fetcher) (ref : EntityKey) :
    (MessagingService.resolveReference fetch ref).result = Except.ok Json.null :=
  rfl

/-- Claim C4: when the upstream reports not-ok for the keyed URL (the entity
is absent), the user service's reference resolver completes normally with
the value `null` — not an error; the messaging service's resolver returns
the value `null` unconditionally. -/
theorem c4_absent_entity_yields_null_value (baseUrl : String) (fetch : Fetcher)
    (ref : EntityKey) (body : Json)
    (h : fetch { url := baseUrl ++ "/api/users/" ++ ref.id, authHdr := AuthHeader.absent }
      = Except.ok { ok := false, body := body }) :
    (UserService.resolveReference baseUrl fetch ref).result = Except.ok Json.null ∧
    ∀ (fetch2 : Fetcher) (ref2 : EntityKey),
      (MessagingService.resolveReference fetch2 ref2).result = Except.ok Json.null := by
  refine ⟨?_, fun _ _ => rfl⟩
  simp [UserService.resolveReference, h]

/-- Claim C4 witness: resolving the absent user "nope" against the store
containing only user 7. -/
theorem c4_absent_entity_yields_null_value_witness :
    (UserService.resolveReference "https://api" userStore { id := "nope" }).result
      = Except.ok Json.null ∧
    ∀ (fetch2 : Fetcher) (ref2 : EntityKey),
      (MessagingService.resolveReference fetch2 ref2).result = Except.ok Json.null :=
  c4_absent_entity_yields_null_value "https://api" userStore { id := "nope" } Json.null rfl

/-- Claim C5: `getListing` returns the stored listing unchanged; its
`seller` field is the reference `{ __typename: 'User', id: ownerId }`; and
resolving that reference through the user service against a store containing
the owner yields the owner's full record. -/
theorem c5_seller_reference_resolves_to_owner (baseUrlL baseUrlU : String)
    (fetchL fetchU : Fetcher) (lid oid : String) (listing : Json) (u : UserEntity)
    (hListing : fetchL { url := baseUrlL ++ "/api/books/" ++ lid, authHdr := AuthHeader.absent }
      = Except.ok { ok := true, body := listing })
    (hOwner : jsGet listing "ownerId" = Json.str oid)
    (hUid : u.id = oid)
    (hUser : fetchU { url := baseUrlU ++ "/api/users/" ++ oid, authHdr := AuthHeader.absent }
      = Except.ok { ok := true, body := encodeUser u }) :
    (ListingService.getListing baseUrlL fetchL lid).result = Except.ok listing ∧
    ListingService.seller listing
      = Json.obj [("__typename", Json.str "User"), ("id", Json.str oid)] ∧
    (UserService.resolveReference baseUrlU fetchU { id := oid }).result
      = Except.ok (encodeUser u) := by
  refine ⟨?_, ?_, ?_⟩
  · simp [ListingService.getListing, hListing]
  · simp [ListingService.seller, hOwner]
  · simp [UserService.resolveReference, hUser]

/-- Claim C5 witness: the spec's scenario — listing 123 with ownerId "7"
against stores containing listing 123 and user 7. -/
theorem c5_seller_reference_resolves_to_owner_witness :
    (ListingService.getListing "https://api" listingStore "123").result
      = Except.ok listing123 ∧
    ListingService.seller listing123
      = Json.obj [("__typename", Json.str "User"), ("id", Json.str "7")] ∧
    (UserService.resolveReference "https://api" userStore { id := "7" }).result
      = Except.ok (encodeUser user7) :=
  c5_seller_reference_resolves_to_owner "https://api" "https://api"
    listingStore userStore "123" "7" listing123 user7 rfl rfl rfl rfl

/-- Claim C6: `myListings` and `currentUser` place the inbound
`authorization` header value — whatever it is, including absent — verbatim
in their single upstream request, which is issued unconditionally; and when
that upstream call answers non-2xx, `myListings` returns `[]` and
`currentUser` returns `null`, not an error. -/
theorem c6_auth_header_forwarded_verbatim (baseUrlL baseUrlU : String)
    (fetchL fetchU : Fetcher) (hdrs : Headers) (bodyL bodyU : Json)
    (hL : fetchL { url := baseUrlL ++ "/api/books/my-listings",
                   authHdr := AuthHeader.auth hdrs.authorization }
      = Except.ok { ok := false, body := bodyL })
    (hU : fetchU { url := baseUrlU ++ "/api/auth/user",
                   authHdr := AuthHeader.auth hdrs.authorization }
      = Except.ok { ok := false, body := bodyU }) :
    (ListingService.myListings baseUrlL fetchL hdrs).requests
      = [{ url := baseUrlL ++ "/api/books/my-listings",
           authHdr := AuthHeader.auth hdrs.authorization }] ∧
    (UserService.currentUser baseUrlU fetchU hdrs).requests
      = [{ url := baseUrlU ++ "/api/auth/user",
           authHdr := AuthHeader.auth hdrs.authorization }] ∧
    (ListingService.myListings baseUrlL fetchL hdrs).result = Except.ok (Json.arr []) ∧
    (UserService.currentUser baseUrlU fetchU hdrs).result = Except.ok Json.null := by
  refine ⟨rfl, rfl, ?_, ?_⟩
  · simp [ListingService.myListings, hL]
  · simp [UserService.currentUser, hU]

/-- Claim C6 witness: no inbound Authorization header at all — the upstream
calls are still issued, carrying the forwarded absent value, and the
upstream's rejection degrades to `[]` and `null`. -/
theorem c6_auth_header_forwarded_verbatim_witness :
    (ListingService.myListings "https://api" notOkFetcher { authorization := none }).requests
      = [{ url := "https://api/api/books/my-listings",
           authHdr := AuthHeader.auth none }] ∧
    (UserService.currentUser "https://api" notOkFetcher { authorization := none }).requests
      = [{ url := "https://api/api/auth/user", authHdr := AuthHeader.auth none }] ∧
    (ListingService.myListings "https://api" notOkFetcher
      { authorization := none }).result = Except.ok (Json.arr []) ∧
    (UserService.currentUser "https://api" notOkFetcher
      { authorization := none }).result = Except.ok Json.null :=
  c6_auth_header_forwarded_verbatim "https://api" "https://api" notOkFetcher notOkFetcher
    { authorization := none } (Json.str "Not Found") (Json.str "Not Found") rfl rfl

/-- Claim C7 counterexample: applied to a listing with no `ownerId` (the
empty object — a missing required key), the repository's only reference
constructor, `Listing.seller`, produces the reference object
`{ __typename: 'User', id: null }` instead of failing with an `InvalidKey`
error. -/
theorem c7_counterexample_empty_key_produces_reference :
    ListingService.seller (Json.obj [])
      = Json.obj [("__typename", Json.str "User"), ("id", Json.null)] :=
  rfl

/-- Claim C7 (amended): the reference constructor performs no key
validation and cannot fail — for every listing value, including ones with a
missing or empty key, it produces a `{ __typename: 'User', id: _ }`
reference object. -/
theorem c7_seller_never_fails (listing : Json) :
    ∃ key, ListingService.seller listing
      = Json.obj [("__typename", Json.str "User"), ("id", key)] :=
  ⟨jsGet listing "ownerId", rfl⟩

/-- Claim C8 counterexample: the messaging service's reference resolver
completes normally (with value `null`) while issuing zero upstream fetches,
even against a store that contains the referenced message — so not every
call to a `resolveReference` in this codebase performs exactly one fetch. -/
theorem c8_counterexample_message_zero_fetches :
    (MessagingService.resolveReference msgStore { id := "m1" }).requests = [] ∧
    (MessagingService.resolveReference msgStore { id := "m1" }).result
      = Except.ok Json.null :=
  ⟨rfl, rfl⟩

/-- Claim C8 (amended): the user service's reference resolver issues exactly
one upstream fetch, keyed by the reference's `id`, on every call path —
including when the fetch itself fails — with no retry and no second fetch;
the messaging service's resolver issues none. -/
theorem c8_user_resolveReference_exactly_one_fetch (baseUrl : String) (fetch : Fetcher)
    (ref : EntityKey) :
    (UserService.resolveReference baseUrl fetch ref).requests
      = [{ url := baseUrl ++ "/api/users/" ++ ref.id, authHdr := AuthHeader.absent }] ∧
    (MessagingService.resolveReference fetch ref).requests = [] :=
  ⟨rfl, rfl⟩

/-- Claim C9: when the upstream answers every request with a 2xx response,
each of the eight top-level query resolvers returns the parsed body of its
own single request unchanged. -/
theorem c9_success_returns_body_unchanged (baseUrl : String) (fetch : Fetcher)
    (okBody : FetchRequest → Json)
    (h : ∀ req, fetch req = Except.ok { ok := true, body := okBody req })
    (id lid uid u1 u2 : String) (args : List (String × String)) (hdrs : Headers) :
    (UserService.getUser baseUrl fetch id).result
      = Except.ok (okBody { url := baseUrl ++ "/api/users/" ++ id,
                            authHdr := AuthHeader.absent }) ∧
    (UserService.currentUser baseUrl fetch hdrs).result
      = Except.ok (okBody { url := baseUrl ++ "/api/auth/user",
                            authHdr := AuthHeader.auth hdrs.authorization }) ∧
    (ListingService.getListing baseUrl fetch lid).result
      = Except.ok (okBody { url := baseUrl ++ "/api/books/" ++ lid,
                            authHdr := AuthHeader.absent }) ∧
    (ListingService.searchListings baseUrl fetch args).result
      = Except.ok (okBody { url := baseUrl ++ "/api/books/search?" ++ urlSearchParams args,
                            authHdr := AuthHeader.absent }) ∧
    (ListingService.recentListings baseUrl fetch).result
      = Except.ok (okBody { url := baseUrl ++ "/api/books",
                            authHdr := AuthHeader.absent }) ∧
    (ListingService.myListings baseUrl fetch hdrs).result
      = Except.ok (okBody { url := baseUrl ++ "/api/books/my-listings",
                            authHdr := AuthHeader.auth hdrs.authorization }) ∧
    (MessagingService.getReceivedMessages baseUrl fetch uid).result
      = Except.ok (okBody { url := baseUrl ++ "/api/messages/received/" ++ uid,
                            authHdr := AuthHeader.absent }) ∧
    (MessagingService.getMessagesBetween baseUrl fetch u1 u2).result
      = Except.ok (okBody { url := baseUrl ++ "/api/messages/between/" ++ u1 ++ "/" ++ u2,
                            authHdr := AuthHeader.absent }) := by
  refine ⟨?_, ?_, ?_, ?_, ?_, ?_, ?_, ?_⟩ <;>
    simp [UserService.getUser, UserService.currentUser, ListingService.getListing,
      ListingService.searchListings, ListingService.recentListings, ListingService.myListings,
      MessagingService.getReceivedMessages, MessagingService.getMessagesBetween, h]

/-- Claim C9 witness: all eight resolvers evaluated against the echoing 2xx
upstream; each returns the body of exactly its own request. -/
theorem c9_success_returns_body_unchanged_witness :
    (UserService.getUser "https://api" okEchoFetcher "1").result
      = Except.ok (Json.str "https://api/api/users/1") ∧
    (UserService.currentUser "https://api" okEchoFetcher
      { authorization := some "Bearer t" }).result
      = Except.ok (Json.str "https://api/api/auth/user") ∧
    (ListingService.getListing "https://api" okEchoFetcher "123").result
      = Except.ok (Json.str "https://api/api/books/123") ∧
    (ListingService.searchListings "https://api" okEchoFetcher
      [("query", "apartment")]).result
      = Except.ok (Json.str "https://api/api/books/search?query=apartment") ∧
    (ListingService.recentListings "https://api" okEchoFetcher).result
      = Except.ok (Json.str "https://api/api/books") ∧
    (ListingService.myListings "https://api" okEchoFetcher
      { authorization := some "Bearer t" }).result
      = Except.ok (Json.str "https://api/api/books/my-listings") ∧
    (MessagingService.getReceivedMessages "https://api" okEchoFetcher "7").result
      = Except.ok (Json.str "https://api/api/messages/received/7") ∧
    (MessagingService.getMessagesBetween "https://api" okEchoFetcher "7" "8").result
      = Except.ok (Json.str "https://api/api/messages/between/7/8") :=
  c9_success_returns_body_unchanged "https://api" okEchoFetcher
    (fun req => Json.str req.url) (fun _ => rfl)
    "1" "123" "7" "7" "8" [("query", "apartment")] { authorization := some "Bearer t" }

/-- Claim C10: the federated `User.listings` field issues exactly one fetch
to `/api/books?ownerId={user.id}`; on a 2xx response it returns the parsed
body, and on a non-2xx response it returns `[]` — a value, never `null` and
never an error. -/
theorem c10_user_listings_fetch_and_degrade (baseUrl : String) (fOk fBad : Fetcher)
    (user : EntityKey) (okBody badBody : Json)
    (hOk : fOk { url := baseUrl ++ "/api/books?ownerId=" ++ user.id,
                 authHdr := AuthHeader.absent }
      = Except.ok { ok := true, body := okBody })
    (hBad : fBad { url := baseUrl ++ "/api/books?ownerId=" ++ user.id,
                   authHdr := AuthHeader.absent }
      = Except.ok { ok := false, body := badBody }) :
    (ListingService.userListings baseUrl fOk user).requests
      = [{ url := baseUrl ++ "/api/books?ownerId=" ++ user.id,
           authHdr := AuthHeader.absent }] ∧
    (ListingService.userListings baseUrl fOk user).result = Except.ok okBody ∧
    (ListingService.userListings baseUrl fBad user).result = Except.ok (Json.arr []) := by
  refine ⟨rfl, ?_, ?_⟩
  · simp [ListingService.userListings, hOk]
  · simp [ListingService.userListings, hBad]

/-- Claim C10 witness: user 7's listings field against the echoing 2xx
upstream and against the constant-not-ok upstream. -/
theorem c10_user_listings_fetch_and_degrade_witness :
    (ListingService.userListings "https://api" okEchoFetcher { id := "7" }).requests
      = [{ url := "https://api/api/books?ownerId=7", authHdr := AuthHeader.absent }] ∧
    (ListingService.userListings "https://api" okEchoFetcher { id := "7" }).result
      = Except.ok (Json.str "https://api/api/books?ownerId=7") ∧
    (ListingService.userListings "https://api" notOkFetcher { id := "7" }).result
      = Except.ok (Json.arr []) :=
  c10_user_listings_fetch_and_degrade "https://api" okEchoFetcher notOkFetcher
    { id := "7" } (Json.str "https://api/api/books?ownerId=7")
    (Json.str "Not Found") rfl rfl

end GraphQLGateway
